import Mathlib

/-
Shallow embedding of the go-hex authentication service (package auth,
`internal/service/auth`), together with the `domain.User` record it
manipulates.  The service code (`Login`, `RefreshToken`, `authenticate`,
`generateJWT`, `generateAccessToken`, `generateRefreshToken`) is translated
from the source.  The external collaborators the service injects — the user
repository (`GetByUsername` / `GetByID` / `Update`), the password-hash
primitives (`HashAndSalt` / `ComparePasswords`), the JWT primitives
(`VerifyToken` / signing) and the clock — are not part of the given source
tree, so they are modelled from the spec's collaborator contracts (each such
definition carries a `Modelled from the spec:` doc comment).

Modelling conventions:
  * Go strings that may hold a serialized JWT or a bcrypt digest are modelled
    by the inductive `Str`, whose constructors record the provenance of the
    bytes (`lit` for ordinary text, `jwt` for a serialized signed token,
    `bhash` for a bcrypt digest with its random salt).  Distinct constructors
    produce distinct byte strings in reality (bcrypt digests start with `$2`,
    JWTs are three base64url segments), and JWT serialization of a fixed
    claim set is deterministic (encoding/json sorts map keys), so equality on
    `Str` models equality of the underlying Go strings.
  * Time is modelled in Unix seconds (`Int`); each top-level call receives
    the current instant `now`.  `times.Now()` inside one call always yields
    this instant.  `time.Time.Format(RFC3339)` and `.Unix()` both determine
    the instant at seconds precision, so a formatted timestamp is modelled by
    its Unix seconds.
  * The random bcrypt salt is supplied by the environment (`Env.salt`);
    `ComparePasswords` ignores the salt, exactly as bcrypt verification does.
  * Fallibility of the collaborators (store errors, signing errors, hashing
    errors) is injected through `Env` so that every error path of the source
    is reachable in the model.
  * `req.Validate()` checks request shape only (out of scope per the spec)
    and is modelled as always passing for the well-formed requests quantified
    over here.
  * The `otel` span calls are pure instrumentation and are omitted.
  * Go's nil-pointer dereference of `*user.RefreshToken` is modelled
    explicitly as a distinguished `nilDeref` outcome of `RefreshToken`.
-/

namespace GoHex

/-- Primitive JWT claim value: the claim maps used by the service hold only
strings and integers (`map[string]interface{}` with string / int64 values). -/
inductive ClaimVal where
  | str (s : String)
  | int (n : Int)
deriving DecidableEq, Repr

/-- Serialized signed JWT: the claim set, the signing key and the signing
algorithm determine the token string (deterministic serialization). -/
structure SignedToken where
  claims : List (String × ClaimVal)
  key : String
  alg : String
deriving DecidableEq, Repr

/-- Runtime byte string, tagged with its provenance: ordinary text, a
serialized JWT, or a bcrypt digest (salt recorded, ignored by comparison). -/
inductive Str where
  | lit (s : String)
  | jwt (t : SignedToken)
  | bhash (salt : Nat) (pre : Str)
deriving DecidableEq, Repr

/-- Lookup of a string-typed claim, mirroring Go's
`val, ok := claims[k].(string)`: a missing key or a non-string value both
yield `none` (the type assertion fails). -/
def getStringClaim (cs : List (String × ClaimVal)) (k : String) : Option String :=
  match cs.find? (fun p => decide (p.1 = k)) with
  | some (_, ClaimVal.str s) => some s
  | _ => none

/-- Modelled from the spec: `pkg/password.ComparePasswords(storedHash, plain)`
is the constant-time bcrypt verification primitive — it succeeds exactly when
`storedHash` is a bcrypt digest of `plain` (any salt); a malformed stored
hash fails verification. -/
def ComparePasswords (storedHash : Str) (plain : Str) : Bool :=
  match storedHash with
  | Str.bhash _ pre => decide (pre = plain)
  | _ => false

/-- Modelled from the spec: `pkg/password.HashAndSalt` computes a salted
bcrypt digest of its input; the salt is drawn from the environment. -/
def HashAndSalt (salt : Nat) (s : Str) : Str :=
  Str.bhash salt s

/-- The `domain.User` record (internal/domain/user.go).  `createdAt` /
`updatedAt` are Unix seconds; `password` holds the stored password digest
and `refreshToken` the nullable stored refresh-token digest. -/
structure User where
  id : String
  username : String
  password : Str
  fullName : Option String
  refreshToken : Option Str
  isActive : Bool
  createdAt : Int
  updatedAt : Int
deriving DecidableEq, Repr

/-- Zero value of `domain.User`, as produced by a Go composite literal that
omits fields. -/
def zeroUser : User :=
  { id := "", username := "", password := Str.lit "", fullName := none,
    refreshToken := none, isActive := false, createdAt := 0, updatedAt := 0 }

/-- State of the external identity store: the user records it holds. -/
structure Store where
  users : List User
deriving DecidableEq, Repr

/-- Error values of the service (`shared/ierr` sentinels, wrapped errors, and
opaque infrastructure errors from the collaborators). -/
inductive Err where
  | resourceNotFound
  | invalidCreds
  | userIsNotActive
  | invalidToken
  | expiredToken
  | signFailure
  | hashFailure
  | wrapped (msg : String) (inner : Err)
  | store (code : Nat)
deriving DecidableEq, Repr

/-- The configuration the service consumes: the JWT signing key and the
access-token TTL in minutes (`cfg.JWT.SigningKey`, `cfg.JWT.TokenExpiration`). -/
structure Config where
  signingKey : String
  tokenExpiration : Int
deriving DecidableEq, Repr

/-- Environment of one request: configuration, injected collaborator
failures, and the bcrypt salt drawn for `HashAndSalt`. -/
structure Env where
  cfg : Config
  getByUsernameErr : Option Err
  getByIDErr : Option Err
  updateErr : Option Err
  accessSignFails : Bool
  refreshSignFails : Bool
  hashFails : Bool
  salt : Nat
deriving DecidableEq, Repr

/-- A call made to the identity store, recorded for frame reasoning. -/
inductive StoreEvent where
  | getByUsername (username : String)
  | getByID (id : String)
  | update (id : String) (payload : User)
deriving DecidableEq, Repr

/-- Modelled from the spec: store contract
`GetByUsername(ctx, username) → Identity | NotFoundError` — looks the record
up by exact username, yielding `resourceNotFound` when absent; an injected
infrastructure error takes precedence. -/
def storeGetByUsername (env : Env) (st : Store) (username : String) : Except Err User :=
  match env.getByUsernameErr with
  | some e => Except.error e
  | none =>
    match st.users.find? (fun u => decide (u.username = username)) with
    | some u => Except.ok u
    | none => Except.error Err.resourceNotFound

/-- Modelled from the spec: store contract
`GetByID(ctx, id) → Identity | NotFoundError` — looks the record up by id,
yielding `resourceNotFound` when absent; an injected infrastructure error
takes precedence. -/
def storeGetByID (env : Env) (st : Store) (id : String) : Except Err User :=
  match env.getByIDErr with
  | some e => Except.error e
  | none =>
    match st.users.find? (fun u => decide (u.id = id)) with
    | some u => Except.ok u
    | none => Except.error Err.resourceNotFound

/-- Modelled from the spec: store contract
`Update(ctx, id, partialIdentity) → OK | error` — a partial update keyed by
id that replaces the record's refresh-token hash with the payload's, without
clobbering the other stored fields; an injected infrastructure error leaves
the store unchanged. -/
def storeUpdate (env : Env) (st : Store) (id : String) (payload : User) : Except Err Store :=
  match env.updateErr with
  | some e => Except.error e
  | none =>
    Except.ok { users := st.users.map (fun u =>
      if u.id = id then { u with refreshToken := payload.refreshToken } else u) }

/-- Modelled from the spec: `pkg/auth.VerifyToken(tokenString, key)` parses
the presented string and verifies its HMAC-SHA256 signature against the
shared secret key; a non-JWT string, a wrong algorithm or a wrong key fail. -/
def VerifyToken (s : Str) (key : String) : Except Unit SignedToken :=
  match s with
  | Str.jwt t => if t.key = key ∧ t.alg = "HS256" then Except.ok t else Except.error ()
  | _ => Except.error ()

/-- Modelled from the spec: the `TokenTypeAccess` constant of the auth
package, the `token_type` tag of access tokens. -/
def TokenTypeAccess : String := "access"

/-- Modelled from the spec: the `TokenTypeRefresh` constant of the auth
package, the `token_type` tag of refresh tokens. -/
def TokenTypeRefresh : String := "refresh"

/-- Unix seconds of `times.Now().AddDate(1000, 0, 0)`: calendar addition of
1000 Gregorian years, modelled as adding their mean length in seconds — the
exact calendar arithmetic is irrelevant to the service, only that the result
is a strictly increasing function of `t` far in the future. -/
def addDate1000Years (t : Int) : Int :=
  t + 31556952000

/-- `Service.generateAccessToken`: computes the expiry instant
(`times.Now()` plus the configured TTL in minutes; the source calls
`times.Now()` twice within the call, both modelled as the call's instant
`now`), then signs `{id, username, exp, token_type:"access"}` with
HMAC-SHA256 under the configured key; a signing error is wrapped with
"cannot generate token" and leaves the token at its zero value. -/
def generateAccessToken (env : Env) (now : Int) (identity : User) :
    Str × Int × Option Err :=
  let expiresAt := now + env.cfg.tokenExpiration * 60
  let expiresAtUnix := now + env.cfg.tokenExpiration * 60
  if env.accessSignFails then
    (Str.lit "", expiresAt, some (Err.wrapped "cannot generate token" Err.signFailure))
  else
    (Str.jwt { claims := [("id", ClaimVal.str identity.id),
                          ("username", ClaimVal.str identity.username),
                          ("exp", ClaimVal.int expiresAtUnix),
                          ("token_type", ClaimVal.str TokenTypeAccess)],
               key := env.cfg.signingKey, alg := "HS256" },
     expiresAt, none)

/-- `Service.generateRefreshToken`: signs
`{id, exp = now + 1000 years, token_type:"refresh"}` with HMAC-SHA256 under
the configured key; a signing error is wrapped with "cannot generate token"
and leaves the token at its zero value. -/
def generateRefreshToken (env : Env) (now : Int) (identity : User) :
    Str × Option Err :=
  if env.refreshSignFails then
    (Str.lit "", some (Err.wrapped "cannot generate token" Err.signFailure))
  else
    (Str.jwt { claims := [("id", ClaimVal.str identity.id),
                          ("exp", ClaimVal.int (addDate1000Years now)),
                          ("token_type", ClaimVal.str TokenTypeRefresh)],
               key := env.cfg.signingKey, alg := "HS256" },
     none)

/-- Result of `Service.generateJWT`: the four Go named return values,
together with the store state after the call and the store calls made. -/
structure JWTResult where
  accessToken : Str
  expiresAt : Int
  refreshToken : Str
  err : Option Err
  store : Store
  trace : List StoreEvent
deriving DecidableEq, Repr

/-- `Service.generateJWT`: generates the access token (failure returns at
once), then the refresh token (failure returns at once), hashes the refresh
token (the intermediate Go `user` literal briefly holds the plaintext token
but is overwritten with the hash before any use; a hashing failure returns
before the update), then sends the store a partial update keyed by the
identity's id whose payload is the zero `domain.User` with only `ID` and
`RefreshToken` (the salted hash) set.  An update error is returned with the
already-generated tokens; only a successful update changes the store. -/
def generateJWT (env : Env) (now : Int) (st : Store) (identity : User) : JWTResult :=
  match generateAccessToken env now identity with
  | (accessToken, expiresAt, some e) =>
    { accessToken := accessToken, expiresAt := expiresAt, refreshToken := Str.lit "",
      err := some e, store := st, trace := [] }
  | (accessToken, expiresAt, none) =>
    match generateRefreshToken env now identity with
    | (refreshToken, some e) =>
      { accessToken := accessToken, expiresAt := expiresAt, refreshToken := refreshToken,
        err := some e, store := st, trace := [] }
    | (refreshToken, none) =>
      if env.hashFails then
        { accessToken := accessToken, expiresAt := expiresAt, refreshToken := refreshToken,
          err := some Err.hashFailure, store := st, trace := [] }
      else
        let hashedRefreshToken := HashAndSalt env.salt refreshToken
        let user := { zeroUser with id := identity.id, refreshToken := some hashedRefreshToken }
        match storeUpdate env st identity.id user with
        | Except.error e =>
          { accessToken := accessToken, expiresAt := expiresAt, refreshToken := refreshToken,
            err := some e, store := st, trace := [StoreEvent.update identity.id user] }
        | Except.ok st' =>
          { accessToken := accessToken, expiresAt := expiresAt, refreshToken := refreshToken,
            err := none, store := st', trace := [StoreEvent.update identity.id user] }

/-- The `ResponseLogin` payload: access token, `expires_at` (an RFC3339
timestamp, modelled by its Unix seconds) and refresh token. -/
structure ResponseLogin where
  accessToken : Str
  expiresAt : Int
  refreshToken : Str
deriving DecidableEq, Repr

/-- Zero value of `ResponseLogin` (the `var res ResponseLogin` of the
source's early returns). -/
def zeroResponse : ResponseLogin :=
  { accessToken := Str.lit "", expiresAt := 0, refreshToken := Str.lit "" }

/-- Result of a top-level service call: the response, the returned error,
the store state after the call and the store calls made. -/
structure OpResult where
  res : ResponseLogin
  err : Option Err
  store : Store
  trace : List StoreEvent
deriving DecidableEq, Repr

/-- `Service.authenticate`: looks the user up by username (`resourceNotFound`
is remapped to `invalidCreds`, any other store error propagates unchanged);
on a found record, requires the exact username match and the bcrypt password
check, then the active flag; returns `invalidCreds` on a failed match and
`userIsNotActive` on an inactive account. -/
def authenticate (env : Env) (st : Store) (username plainPwd : String) :
    Except Err User × List StoreEvent :=
  let trace := [StoreEvent.getByUsername username]
  match storeGetByUsername env st username with
  | Except.error e =>
    if e = Err.resourceNotFound then (Except.error Err.invalidCreds, trace)
    else (Except.error e, trace)
  | Except.ok user =>
    if username = user.username ∧ ComparePasswords user.password (Str.lit plainPwd) = true then
      if user.isActive = false then (Except.error Err.userIsNotActive, trace)
      else (Except.ok user, trace)
    else (Except.error Err.invalidCreds, trace)

/-- `Service.Login`: authenticates, then issues the token pair via
`generateJWT`; the response is built from the `generateJWT` return values
even when its error is non-nil. -/
def Login (env : Env) (now : Int) (st : Store) (username plainPwd : String) : OpResult :=
  match authenticate env st username plainPwd with
  | (Except.error e, trace) =>
    { res := zeroResponse, err := some e, store := st, trace := trace }
  | (Except.ok identity, trace) =>
    let r := generateJWT env now st identity
    { res := { accessToken := r.accessToken, expiresAt := r.expiresAt,
               refreshToken := r.refreshToken },
      err := r.err, store := r.store, trace := trace ++ r.trace }

/-- Outcome of `Service.RefreshToken`: a normal return, or the Go runtime
panic raised by dereferencing the nil `user.RefreshToken` pointer. -/
inductive RTOutcome where
  | ok (r : OpResult)
  | nilDeref (st : Store) (trace : List StoreEvent)
deriving DecidableEq, Repr

/-- `Service.RefreshToken`: verifies the presented token's signature
(failure → `invalidToken`), requires the `token_type` claim to equal
"refresh" (`invalidToken` otherwise, before any store access), extracts the
`id` claim with the empty string as default, looks the user up by id (store
errors propagate unchanged), dereferences the stored refresh-token hash
pointer (`nilDeref` when nil), compares the presented token against it
(`expiredToken` on mismatch), and finally rotates via `generateJWT`,
building the response from its return values even on a non-nil error. -/
def RefreshToken (env : Env) (now : Int) (st : Store) (reqRefreshToken : Str) : RTOutcome :=
  match VerifyToken reqRefreshToken env.cfg.signingKey with
  | Except.error _ =>
    RTOutcome.ok { res := zeroResponse, err := some Err.invalidToken, store := st, trace := [] }
  | Except.ok token =>
    let tokenType := (getStringClaim token.claims "token_type").getD ""
    if tokenType ≠ TokenTypeRefresh then
      RTOutcome.ok { res := zeroResponse, err := some Err.invalidToken, store := st, trace := [] }
    else
      let id := (getStringClaim token.claims "id").getD ""
      let trace := [StoreEvent.getByID id]
      match storeGetByID env st id with
      | Except.error e =>
        RTOutcome.ok { res := zeroResponse, err := some e, store := st, trace := trace }
      | Except.ok user =>
        match user.refreshToken with
        | none => RTOutcome.nilDeref st trace
        | some storedHash =>
          if ComparePasswords storedHash reqRefreshToken = false then
            RTOutcome.ok { res := zeroResponse, err := some Err.expiredToken, store := st, trace := trace }
          else
            let r := generateJWT env now st user
            RTOutcome.ok
              { res := { accessToken := r.accessToken, expiresAt := r.expiresAt,
                         refreshToken := r.refreshToken },
                err := r.err, store := r.store, trace := trace ++ r.trace }

/-- Environment with working collaborators: no injected store, signing or
hashing failures. -/
def cleanEnv (key : String) (ttl : Int) (salt : Nat) : Env :=
  { cfg := { signingKey := key, tokenExpiration := ttl },
    getByUsernameErr := none, getByIDErr := none, updateErr := none,
    accessSignFails := false, refreshSignFails := false, hashFails := false,
    salt := salt }

/-- The access token the source signs for `identity` at instant `now`:
claims `{id, username, exp = now + TTL minutes, token_type:"access"}` under
the configured key. -/
def expectedAccessToken (key : String) (id uname : String) (exp : Int) : Str :=
  Str.jwt { claims := [("id", ClaimVal.str id),
                       ("username", ClaimVal.str uname),
                       ("exp", ClaimVal.int exp),
                       ("token_type", ClaimVal.str TokenTypeAccess)],
            key := key, alg := "HS256" }

/-- The refresh token the source signs for `identity` at instant `now`:
claims `{id, exp = now + 1000 years, token_type:"refresh"}` under the
configured key. -/
def expectedRefreshToken (key : String) (id : String) (exp : Int) : Str :=
  Str.jwt { claims := [("id", ClaimVal.str id),
                       ("exp", ClaimVal.int exp),
                       ("token_type", ClaimVal.str TokenTypeRefresh)],
            key := key, alg := "HS256" }

/-- Returned error of a `RefreshToken` outcome: `none` when the call
panicked, `some err` for a normal return with Go error `err`. -/
def RTOutcome.errOf : RTOutcome → Option (Option Err)
  | RTOutcome.ok r => some r.err
  | RTOutcome.nilDeref _ _ => none

/-- Store state after a `RefreshToken` outcome (a panic leaves the store as
it was). -/
def RTOutcome.storeOf : RTOutcome → Store
  | RTOutcome.ok r => r.store
  | RTOutcome.nilDeref st _ => st

/-- Concrete test environment: signing key "k", 15-minute access TTL,
bcrypt salt 7, all collaborators working. -/
def fixtureEnv : Env := cleanEnv "k" 15 7

/-- Concrete identity `u1`/`alice` with password digest of "secret", active,
and no stored refresh-token hash (no prior login). -/
def fixtureUser : User :=
  { id := "u1", username := "alice", password := Str.bhash 3 (Str.lit "secret"),
    fullName := none, refreshToken := none, isActive := true,
    createdAt := 0, updatedAt := 0 }

/-- Store holding only `fixtureUser`. -/
def fixtureStore : Store := { users := [fixtureUser] }

/-- A validly-signed refresh token carrying `fixtureUser`'s id. -/
def fixtureRefreshTok : Str := expectedRefreshToken "k" "u1" 999

/-- C1: the spec requires that a validly-signed "refresh"-typed token naming
an identity whose stored refresh-token hash is nil (no prior login) yields
the expired/invalidated-token error, the hash comparison being total; the
source instead dereferences the nil `user.RefreshToken` pointer.  Evaluating
`RefreshToken` at such an input produces the nil-dereference panic outcome,
not `ErrExpiredToken`. -/
theorem refreshToken_nil_stored_hash_crashes :
    RefreshToken fixtureEnv 100 fixtureStore fixtureRefreshTok =
      RTOutcome.nilDeref fixtureStore [StoreEvent.getByID "u1"] := by
  decide

/-- C4: a presented token that verifies under the configured key but whose
token_type claim is anything other than "refresh" (a missing or non-string
claim defaulting to the empty string) makes `RefreshToken` return the
invalid-token error with a zero response, the store unchanged and no store
call recorded — for any store contents and collaborator behavior. -/
theorem refreshToken_wrong_token_type_rejected
    (env : Env) (now : Int) (st : Store) (tok : SignedToken)
    (hkey : tok.key = env.cfg.signingKey) (halg : tok.alg = "HS256")
    (htype : (getStringClaim tok.claims "token_type").getD "" ≠ TokenTypeRefresh) :
    RefreshToken env now st (Str.jwt tok) =
      RTOutcome.ok { res := zeroResponse, err := some Err.invalidToken,
                     store := st, trace := [] } := by
  simp [RefreshToken, VerifyToken, hkey, halg, htype]

/-- Witness for C4: an access-typed token signed with the configured key is
rejected by `RefreshToken` with `invalidToken` and no store access. -/
theorem refreshToken_wrong_token_type_rejected_witness :
    RefreshToken fixtureEnv 100 fixtureStore
        (Str.jwt { claims := [("id", ClaimVal.str "u1"), ("token_type", ClaimVal.str "access")],
                   key := "k", alg := "HS256" }) =
      RTOutcome.ok { res := zeroResponse, err := some Err.invalidToken,
                     store := fixtureStore, trace := [] } :=
  refreshToken_wrong_token_type_rejected fixtureEnv 100 fixtureStore _
    (by decide) (by decide) (by decide)

/-- C3: an unknown username and a wrong password yield the same
`invalidCreds` error value from `Login` (the two cases are indistinguishable
by error), while any store failure other than not-found propagates
unchanged. -/
theorem login_invalid_credentials_indistinguishable
    (key : String) (ttl : Int) (salt : Nat) (now : Int) (st : Store) (uname pwd : String) :
    (st.users.find? (fun u => decide (u.username = uname)) = none →
      (Login (cleanEnv key ttl salt) now st uname pwd).err = some Err.invalidCreds) ∧
    (∀ u, st.users.find? (fun x => decide (x.username = uname)) = some u →
      ComparePasswords u.password (Str.lit pwd) = false →
      (Login (cleanEnv key ttl salt) now st uname pwd).err = some Err.invalidCreds) ∧
    (∀ e : Err, e ≠ Err.resourceNotFound →
      (Login { cleanEnv key ttl salt with getByUsernameErr := some e } now st uname pwd).err
        = some e) := by
  refine ⟨fun hfind => ?_, fun u hfind hcmp => ?_, fun e he => ?_⟩
  · simp [Login, authenticate, storeGetByUsername, cleanEnv, hfind]
  · simp [Login, authenticate, storeGetByUsername, cleanEnv, hfind, hcmp]
  · simp [Login, authenticate, storeGetByUsername, cleanEnv, he]

/-- Witness for C3: with the fixture store, the unknown username "bob" and a
wrong password for "alice" both give `invalidCreds`, and an injected opaque
store failure propagates unchanged. -/
theorem login_invalid_credentials_indistinguishable_witness :
    (Login (cleanEnv "k" 15 7) 0 fixtureStore "bob" "pw").err = some Err.invalidCreds ∧
    (Login (cleanEnv "k" 15 7) 0 fixtureStore "alice" "wrong").err = some Err.invalidCreds ∧
    (Login { cleanEnv "k" 15 7 with getByUsernameErr := some (Err.store 5) } 0 fixtureStore
        "alice" "pw").err = some (Err.store 5) :=
  ⟨(login_invalid_credentials_indistinguishable "k" 15 7 0 fixtureStore "bob" "pw").1
      (by decide),
   (login_invalid_credentials_indistinguishable "k" 15 7 0 fixtureStore "alice" "wrong").2.1
      fixtureUser (by decide) (by decide),
   (login_invalid_credentials_indistinguishable "k" 15 7 0 fixtureStore "alice" "pw").2.2
      (Err.store 5) (by decide)⟩

/-- The partial-update payload `generateJWT` builds for the store: the zero
`domain.User` with only the id and the refresh-token hash set. -/
def updatePayload (id : String) (hash : Str) : User :=
  { zeroUser with id := id, refreshToken := some hash }

/-- Helper: under working collaborators, `generateJWT` issues the two
expected tokens, stores the salted hash of the refresh token for the
identity, sends exactly one narrow update, and reports no error. -/
theorem generateJWT_clean_spec (env : Env) (now : Int) (st : Store) (identity : User)
    (h1 : env.accessSignFails = false) (h2 : env.refreshSignFails = false)
    (h3 : env.hashFails = false) (h4 : env.updateErr = none) :
    generateJWT env now st identity =
      { accessToken := expectedAccessToken env.cfg.signingKey identity.id identity.username
          (now + env.cfg.tokenExpiration * 60),
        expiresAt := now + env.cfg.tokenExpiration * 60,
        refreshToken := expectedRefreshToken env.cfg.signingKey identity.id (addDate1000Years now),
        err := none,
        store := { users := st.users.map (fun u =>
          if u.id = identity.id then
            { u with refreshToken := some (Str.bhash env.salt (expectedRefreshToken env.cfg.signingKey identity.id (addDate1000Years now))) }
          else u) },
        trace := [StoreEvent.update identity.id (updatePayload identity.id (Str.bhash env.salt (expectedRefreshToken env.cfg.signingKey identity.id (addDate1000Years now))))] } := by
  simp [generateJWT, generateAccessToken, generateRefreshToken, h1, h2, h3, h4,
        storeUpdate, HashAndSalt, expectedAccessToken, expectedRefreshToken, updatePayload]

/-- Helper: when only the store update fails, `generateJWT` still returns
the two freshly signed tokens alongside the update error, and the store is
left unchanged. -/
theorem generateJWT_updateErr_spec (env : Env) (now : Int) (st : Store) (identity : User)
    (e : Err) (h1 : env.accessSignFails = false) (h2 : env.refreshSignFails = false)
    (h3 : env.hashFails = false) (h4 : env.updateErr = some e) :
    generateJWT env now st identity =
      { accessToken := expectedAccessToken env.cfg.signingKey identity.id identity.username
          (now + env.cfg.tokenExpiration * 60),
        expiresAt := now + env.cfg.tokenExpiration * 60,
        refreshToken := expectedRefreshToken env.cfg.signingKey identity.id (addDate1000Years now),
        err := some e,
        store := st,
        trace := [StoreEvent.update identity.id (updatePayload identity.id (Str.bhash env.salt (expectedRefreshToken env.cfg.signingKey identity.id (addDate1000Years now))))] } := by
  simp [generateJWT, generateAccessToken, generateRefreshToken, h1, h2, h3, h4,
        storeUpdate, HashAndSalt, expectedAccessToken, expectedRefreshToken, updatePayload]

/-- Helper: a signing failure for either token makes `generateJWT` return
the wrapped signing error before any store access: the store is unchanged
and no store call is recorded. -/
theorem generateJWT_signFail_spec (env : Env) (now : Int) (st : Store) (identity : User)
    (h : env.accessSignFails = true ∨ env.refreshSignFails = true) :
    (generateJWT env now st identity).err
        = some (Err.wrapped "cannot generate token" Err.signFailure) ∧
    (generateJWT env now st identity).store = st ∧
    (generateJWT env now st identity).trace = [] := by
  by_cases hA : env.accessSignFails
  · simp [generateJWT, generateAccessToken, hA]
  · have hR : env.refreshSignFails = true := by
      rcases h with h | h
      · exact absurd h hA
      · exact h
    simp [generateJWT, generateAccessToken, generateRefreshToken, hA, hR]

/-- Helper: whatever the refresh-token signing, hashing and store update do,
`generateJWT` returns the access token signed at the call's instant and the
matching expiry. -/
theorem generateJWT_access_fields (env : Env) (now : Int) (st : Store) (identity : User)
    (hsign : env.accessSignFails = false) :
    (generateJWT env now st identity).accessToken =
      expectedAccessToken env.cfg.signingKey identity.id identity.username
        (now + env.cfg.tokenExpiration * 60) ∧
    (generateJWT env now st identity).expiresAt = now + env.cfg.tokenExpiration * 60 := by
  unfold generateJWT
  simp only [generateAccessToken, hsign, Bool.false_eq_true, if_false]
  refine ⟨?_, ?_⟩ <;> (split <;> (try split) <;> (try split) <;> simp [expectedAccessToken])

/-- Helper: authentication succeeds for a stored, active identity presented
with a password matching its stored digest. -/
theorem authenticate_success_spec (env : Env) (st : Store) (pwd : String) (u : User)
    (henv : env.getByUsernameErr = none)
    (hfind : st.users.find? (fun x => decide (x.username = u.username)) = some u)
    (hpwd : ComparePasswords u.password (Str.lit pwd) = true)
    (hactive : u.isActive = true) :
    authenticate env st u.username pwd = (Except.ok u, [StoreEvent.getByUsername u.username]) := by
  simp [authenticate, storeGetByUsername, henv, hfind, hpwd, hactive]

/-- C5: a successful `Login` of a stored active identity returns an access
token whose claims are exactly id, username, `exp = now` plus the configured
TTL in minutes (as Unix seconds) and `token_type:"access"`, signed with
HMAC-SHA256 under the configured key, and a response `expires_at` equal to
that same expiry instant. -/
theorem login_access_token_claims
    (env : Env) (now : Int) (st : Store) (pwd : String) (u : User)
    (henv : env.getByUsernameErr = none)
    (hfind : st.users.find? (fun x => decide (x.username = u.username)) = some u)
    (hpwd : ComparePasswords u.password (Str.lit pwd) = true)
    (hactive : u.isActive = true)
    (hsign : env.accessSignFails = false) :
    (Login env now st u.username pwd).res.accessToken =
      expectedAccessToken env.cfg.signingKey u.id u.username
        (now + env.cfg.tokenExpiration * 60) ∧
    (Login env now st u.username pwd).res.expiresAt
      = now + env.cfg.tokenExpiration * 60 := by
  have hauth := authenticate_success_spec env st pwd u henv hfind hpwd hactive
  have hacc := generateJWT_access_fields env now st u hsign
  simp [Login, hauth, hacc.1, hacc.2]

/-- Witness for C5: the fixture login returns the expected HS256 access
token and matching expiry. -/
theorem login_access_token_claims_witness :
    (Login fixtureEnv 100 fixtureStore "alice" "secret").res.accessToken =
      expectedAccessToken "k" "u1" "alice" (100 + 15 * 60) ∧
    (Login fixtureEnv 100 fixtureStore "alice" "secret").res.expiresAt = 100 + 15 * 60 :=
  login_access_token_claims fixtureEnv 100 fixtureStore "secret" fixtureUser
    (by decide) (by decide) (by decide) (by decide) (by decide)

/-- C8: an inactive stored identity presented with the correct password gets
the distinct account-not-active error, and this error arises only after a
successful password comparison — with a failed comparison the same identity
gets `invalidCreds` regardless of its active flag. -/
theorem login_inactive_account_distinct_error
    (env : Env) (now : Int) (st : Store) (pwd : String) (u : User)
    (henv : env.getByUsernameErr = none)
    (hfind : st.users.find? (fun x => decide (x.username = u.username)) = some u) :
    (ComparePasswords u.password (Str.lit pwd) = true → u.isActive = false →
      (Login env now st u.username pwd).err = some Err.userIsNotActive) ∧
    (ComparePasswords u.password (Str.lit pwd) = false →
      (Login env now st u.username pwd).err = some Err.invalidCreds) := by
  constructor
  · intro hpwd hact
    simp [Login, authenticate, storeGetByUsername, henv, hfind, hpwd, hact]
  · intro hpwd
    simp [Login, authenticate, storeGetByUsername, henv, hfind, hpwd]

/-- Concrete inactive identity for the C8 witness. -/
def fixtureInactiveUser : User :=
  { fixtureUser with id := "u2", username := "carol", isActive := false }

/-- Store holding only the inactive identity. -/
def fixtureInactiveStore : Store := { users := [fixtureInactiveUser] }

/-- Witness for C8: the inactive account with the right password gets
`userIsNotActive`; with a wrong password it gets `invalidCreds`. -/
theorem login_inactive_account_distinct_error_witness :
    (Login fixtureEnv 0 fixtureInactiveStore "carol" "secret").err
      = some Err.userIsNotActive ∧
    (Login fixtureEnv 0 fixtureInactiveStore "carol" "bad").err
      = some Err.invalidCreds :=
  ⟨(login_inactive_account_distinct_error fixtureEnv 0 fixtureInactiveStore "secret"
      fixtureInactiveUser (by decide) (by decide)).1 (by decide) (by decide),
   (login_inactive_account_distinct_error fixtureEnv 0 fixtureInactiveStore "bad"
      fixtureInactiveUser (by decide) (by decide)).2 (by decide)⟩

/-- C6: a signing failure for either token makes `generateJWT` abort before
any persistence (error returned, store unchanged, no store call), and a
store-update failure after successful signing is returned to the caller. -/
theorem generateJWT_failure_containment
    (env : Env) (now : Int) (st : Store) (identity : User) :
    ((env.accessSignFails = true ∨ env.refreshSignFails = true) →
      (∃ e, (generateJWT env now st identity).err = some e) ∧
      (generateJWT env now st identity).store = st ∧
      (generateJWT env now st identity).trace = []) ∧
    (∀ e, env.updateErr = some e → env.accessSignFails = false →
      env.refreshSignFails = false → env.hashFails = false →
      (generateJWT env now st identity).err = some e) := by
  constructor
  · intro h
    obtain ⟨he, hs, ht⟩ := generateJWT_signFail_spec env now st identity h
    exact ⟨⟨_, he⟩, hs, ht⟩
  · intro e h4 h1 h2 h3
    rw [generateJWT_updateErr_spec env now st identity e h1 h2 h3 h4]

/-- Witness for C6: with an injected access-token signing failure the store
is untouched and an error is returned; with an injected update failure the
error reaches the caller. -/
theorem generateJWT_failure_containment_witness :
    ((∃ e, (generateJWT { fixtureEnv with accessSignFails := true } 0 fixtureStore
        fixtureUser).err = some e) ∧
      (generateJWT { fixtureEnv with accessSignFails := true } 0 fixtureStore
        fixtureUser).store = fixtureStore ∧
      (generateJWT { fixtureEnv with accessSignFails := true } 0 fixtureStore
        fixtureUser).trace = []) ∧
    (generateJWT { fixtureEnv with updateErr := some (Err.store 9) } 0 fixtureStore
        fixtureUser).err = some (Err.store 9) :=
  ⟨(generateJWT_failure_containment { fixtureEnv with accessSignFails := true } 0
      fixtureStore fixtureUser).1 (by decide),
   (generateJWT_failure_containment { fixtureEnv with updateErr := some (Err.store 9) } 0
      fixtureStore fixtureUser).2 (Err.store 9) (by decide) (by decide) (by decide) (by decide)⟩

/-- C7: a validly-signed refresh-typed token whose id claim is missing or
not a string makes `RefreshToken` use the empty identifier for the lookup,
and whatever error that lookup yields is returned to the caller unchanged. -/
theorem refreshToken_missing_id_claim
    (env : Env) (now : Int) (st : Store) (tok : SignedToken) (e : Err)
    (hkey : tok.key = env.cfg.signingKey) (halg : tok.alg = "HS256")
    (htype : getStringClaim tok.claims "token_type" = some TokenTypeRefresh)
    (hid : getStringClaim tok.claims "id" = none)
    (hlookup : storeGetByID env st "" = Except.error e) :
    RefreshToken env now st (Str.jwt tok) =
      RTOutcome.ok { res := zeroResponse, err := some e, store := st,
                     trace := [StoreEvent.getByID ""] } := by
  simp [RefreshToken, VerifyToken, hkey, halg, htype, hid, hlookup]

/-- A validly-signed refresh-typed token with no id claim, for the C7
witness. -/
def fixtureNoIdTok : SignedToken :=
  { claims := [("token_type", ClaimVal.str "refresh"), ("exp", ClaimVal.int 5)],
    key := "k", alg := "HS256" }

/-- Witness for C7: with no record under the empty id, the lookup's
not-found error is returned unchanged (and is not `invalidToken`). -/
theorem refreshToken_missing_id_claim_witness :
    RefreshToken fixtureEnv 0 fixtureStore (Str.jwt fixtureNoIdTok) =
      RTOutcome.ok { res := zeroResponse, err := some Err.resourceNotFound,
                     store := fixtureStore, trace := [StoreEvent.getByID ""] } :=
  refreshToken_missing_id_claim fixtureEnv 0 fixtureStore fixtureNoIdTok
    Err.resourceNotFound (by decide) (by decide) (by decide) (by decide) (by rfl)

/-- C10: when token generation succeeds but the store update fails, `Login`
and `RefreshToken` return the update error together with a response that
still carries the freshly generated tokens (not the zero strings). -/
theorem response_keeps_tokens_on_update_failure
    (env : Env) (now : Int) (st : Store) (e : Err)
    (hupd : env.updateErr = some e) (h1 : env.accessSignFails = false)
    (h2 : env.refreshSignFails = false) (h3 : env.hashFails = false) :
    (∀ (pwd : String) (u : User), env.getByUsernameErr = none →
      st.users.find? (fun x => decide (x.username = u.username)) = some u →
      ComparePasswords u.password (Str.lit pwd) = true → u.isActive = true →
      (Login env now st u.username pwd).err = some e ∧
      (Login env now st u.username pwd).res.accessToken =
        expectedAccessToken env.cfg.signingKey u.id u.username
          (now + env.cfg.tokenExpiration * 60) ∧
      (Login env now st u.username pwd).res.refreshToken =
        expectedRefreshToken env.cfg.signingKey u.id (addDate1000Years now) ∧
      (Login env now st u.username pwd).res.accessToken ≠ Str.lit "" ∧
      (Login env now st u.username pwd).res.refreshToken ≠ Str.lit "") ∧
    (∀ (tok : SignedToken) (u : User) (h : Str),
      tok.key = env.cfg.signingKey → tok.alg = "HS256" →
      getStringClaim tok.claims "token_type" = some TokenTypeRefresh →
      getStringClaim tok.claims "id" = some u.id →
      storeGetByID env st u.id = Except.ok u →
      u.refreshToken = some h →
      ComparePasswords h (Str.jwt tok) = true →
      RefreshToken env now st (Str.jwt tok) =
        RTOutcome.ok
          { res := { accessToken := expectedAccessToken env.cfg.signingKey u.id u.username
                       (now + env.cfg.tokenExpiration * 60),
                     expiresAt := now + env.cfg.tokenExpiration * 60,
                     refreshToken := expectedRefreshToken env.cfg.signingKey u.id
                       (addDate1000Years now) },
            err := some e,
            store := st,
            trace := [StoreEvent.getByID u.id,
              StoreEvent.update u.id (updatePayload u.id (Str.bhash env.salt (expectedRefreshToken env.cfg.signingKey u.id (addDate1000Years now))))] }) := by
  have hg := generateJWT_updateErr_spec env now st
  constructor
  · intro pwd u henv hfind hpwd hactive
    have hauth := authenticate_success_spec env st pwd u henv hfind hpwd hactive
    simp [Login, hauth, hg u e h1 h2 h3 hupd, expectedAccessToken, expectedRefreshToken]
  · intro tok u h hkey halg htype hid hlookup hstored hcmp
    simp [RefreshToken, VerifyToken, hkey, halg, htype, hid, hlookup, hstored, hcmp,
          hg u e h1 h2 h3 hupd, HashAndSalt]

/-- A refresh token matching `fixtureRotUser`'s stored hash, for the C10
witness. -/
def fixtureRotTok : SignedToken :=
  { claims := [("id", ClaimVal.str "u3"), ("token_type", ClaimVal.str "refresh")],
    key := "k", alg := "HS256" }

/-- Identity whose stored refresh-token hash matches `fixtureRotTok`. -/
def fixtureRotUser : User :=
  { id := "u3", username := "dave", password := Str.bhash 2 (Str.lit "pw"),
    fullName := none, refreshToken := some (Str.bhash 5 (Str.jwt fixtureRotTok)),
    isActive := true, createdAt := 0, updatedAt := 0 }

/-- Store holding only `fixtureRotUser`. -/
def fixtureRotStore : Store := { users := [fixtureRotUser] }

/-- Witness for C10: with an injected update failure, the fixture login and
refresh both return the error alongside the freshly signed tokens. -/
theorem response_keeps_tokens_on_update_failure_witness :
    (Login { fixtureEnv with updateErr := some (Err.store 3) } 0 fixtureStore
        "alice" "secret").err = some (Err.store 3) ∧
    (Login { fixtureEnv with updateErr := some (Err.store 3) } 0 fixtureStore
        "alice" "secret").res.accessToken ≠ Str.lit "" ∧
    RefreshToken { fixtureEnv with updateErr := some (Err.store 3) } 0 fixtureRotStore
        (Str.jwt fixtureRotTok) =
      RTOutcome.ok
        { res := { accessToken := expectedAccessToken "k" "u3" "dave" (0 + 15 * 60),
                   expiresAt := 0 + 15 * 60,
                   refreshToken := expectedRefreshToken "k" "u3" (addDate1000Years 0) },
          err := some (Err.store 3),
          store := fixtureRotStore,
          trace := [StoreEvent.getByID "u3",
            StoreEvent.update "u3" (updatePayload "u3" (Str.bhash 7 (expectedRefreshToken "k" "u3" (addDate1000Years 0))))] } :=
  have t := response_keeps_tokens_on_update_failure
    { fixtureEnv with updateErr := some (Err.store 3) } 0 fixtureStore (Err.store 3)
    (by decide) (by decide) (by decide) (by decide)
  have t2 := response_keeps_tokens_on_update_failure
    { fixtureEnv with updateErr := some (Err.store 3) } 0 fixtureRotStore (Err.store 3)
    (by decide) (by decide) (by decide) (by decide)
  have hl := t.1 "secret" fixtureUser (by decide) (by decide) (by decide) (by decide)
  have hr := t2.2 fixtureRotTok fixtureRotUser (Str.bhash 5 (Str.jwt fixtureRotTok))
    (by decide) (by decide) (by decide) (by decide) (by rfl) (by decide) (by decide)
  ⟨hl.1, hl.2.2.2.1, hr⟩

/-- C9 counterexample: the spec says every field of the update payload other
than the refresh-token hash is left at its zero value, but the payload the
fixture login sends to the store carries the identity's id "u1" in its ID
field, which differs from the zero value. -/
theorem update_payload_id_not_zero_counterexample :
    (Login fixtureEnv 100 fixtureStore "alice" "secret").trace =
      [StoreEvent.getByUsername "alice",
       StoreEvent.update "u1" (updatePayload "u1" (Str.bhash 7 (expectedRefreshToken "k" "u1" (addDate1000Years 100))))] ∧
    (updatePayload "u1" (Str.bhash 7 (expectedRefreshToken "k" "u1" (addDate1000Years 100)))).id
      ≠ zeroUser.id := by
  decide

/-- C9 (amended): on successful issuance the single update sent to the
store is keyed by the identity's id, and its payload carries the identity's
id in the ID field, the salted hash of the newly issued refresh token (never
the plaintext) in the refresh-token field, and the zero value in every other
field. -/
theorem generateJWT_update_narrow
    (env : Env) (now : Int) (st : Store) (identity : User)
    (h1 : env.accessSignFails = false) (h2 : env.refreshSignFails = false)
    (h3 : env.hashFails = false) :
    (generateJWT env now st identity).trace =
      [StoreEvent.update identity.id
        (updatePayload identity.id
          (HashAndSalt env.salt (generateJWT env now st identity).refreshToken))] ∧
    (generateJWT env now st identity).refreshToken =
      expectedRefreshToken env.cfg.signingKey identity.id (addDate1000Years now) ∧
    updatePayload identity.id
        (HashAndSalt env.salt (generateJWT env now st identity).refreshToken)
      = { id := identity.id, username := "", password := Str.lit "", fullName := none,
          refreshToken := some (HashAndSalt env.salt
            (generateJWT env now st identity).refreshToken),
          isActive := false, createdAt := 0, updatedAt := 0 } := by
  rcases hU : env.updateErr with _ | e
  · rw [generateJWT_clean_spec env now st identity h1 h2 h3 hU]
    simp [updatePayload, HashAndSalt, zeroUser]
  · rw [generateJWT_updateErr_spec env now st identity e h1 h2 h3 hU]
    simp [updatePayload, HashAndSalt, zeroUser]

/-- Witness for C9 (amended): the fixture issuance sends exactly one narrow
update whose payload holds only the id and the hashed refresh token. -/
theorem generateJWT_update_narrow_witness :
    (generateJWT fixtureEnv 100 fixtureStore fixtureUser).trace =
      [StoreEvent.update fixtureUser.id
        (updatePayload fixtureUser.id
          (HashAndSalt fixtureEnv.salt
            (generateJWT fixtureEnv 100 fixtureStore fixtureUser).refreshToken))] ∧
    (generateJWT fixtureEnv 100 fixtureStore fixtureUser).refreshToken =
      expectedRefreshToken fixtureEnv.cfg.signingKey fixtureUser.id (addDate1000Years 100) ∧
    updatePayload fixtureUser.id
        (HashAndSalt fixtureEnv.salt
          (generateJWT fixtureEnv 100 fixtureStore fixtureUser).refreshToken)
      = { id := fixtureUser.id, username := "", password := Str.lit "", fullName := none,
          refreshToken := some (HashAndSalt fixtureEnv.salt
            (generateJWT fixtureEnv 100 fixtureStore fixtureUser).refreshToken),
          isActive := false, createdAt := 0, updatedAt := 0 } :=
  generateJWT_update_narrow fixtureEnv 100 fixtureStore fixtureUser
    (by decide) (by decide) (by decide)

/-- Identity for the rotation round-trip scenario: active, stored password
digest of `pwd`, no stored refresh-token hash yet. -/
def rotUser (uid uname pwd : String) (psalt : Nat) : User :=
  { id := uid, username := uname, password := Str.bhash psalt (Str.lit pwd),
    fullName := none, refreshToken := none, isActive := true,
    createdAt := 0, updatedAt := 0 }

/-- Step 1 of the rotation scenario: login at instant `t0` against a store
holding only the scenario identity, with working collaborators. -/
def rotLogin (key uid uname pwd : String) (ttl : Int) (psalt salt : Nat) (t0 : Int) :
    OpResult :=
  Login (cleanEnv key ttl salt) t0 { users := [rotUser uid uname pwd psalt] } uname pwd

/-- Step 2: first `RefreshToken` call at instant `t1`, presenting the
refresh token returned by the login, against the post-login store. -/
def rotFirst (key uid uname pwd : String) (ttl : Int) (psalt salt : Nat) (t0 t1 : Int) :
    RTOutcome :=
  RefreshToken (cleanEnv key ttl salt) t1 (rotLogin key uid uname pwd ttl psalt salt t0).store
    (rotLogin key uid uname pwd ttl psalt salt t0).res.refreshToken

/-- Step 3: second `RefreshToken` call at instant `t2` with the *same old*
token string from the login, against the post-rotation store. -/
def rotSecond (key uid uname pwd : String) (ttl : Int) (psalt salt : Nat)
    (t0 t1 t2 : Int) : RTOutcome :=
  RefreshToken (cleanEnv key ttl salt) t2
    (rotFirst key uid uname pwd ttl psalt salt t0 t1).storeOf
    (rotLogin key uid uname pwd ttl psalt salt t0).res.refreshToken

/-- Helper: the login step of the rotation scenario succeeds, returns the
expected token pair and stores the salted hash of the issued refresh
token. -/
theorem rotLogin_eq (key uid uname pwd : String) (ttl : Int) (psalt salt : Nat)
    (t0 : Int) :
    rotLogin key uid uname pwd ttl psalt salt t0 =
      { res := { accessToken := expectedAccessToken key uid uname (t0 + ttl * 60),
                 expiresAt := t0 + ttl * 60,
                 refreshToken := expectedRefreshToken key uid (addDate1000Years t0) },
        err := none,
        store := { users := [{ rotUser uid uname pwd psalt with
          refreshToken := some (Str.bhash salt (expectedRefreshToken key uid (addDate1000Years t0))) }] },
        trace := [StoreEvent.getByUsername uname,
          StoreEvent.update uid (updatePayload uid (Str.bhash salt (expectedRefreshToken key uid (addDate1000Years t0))))] } := by
  simp [rotLogin, Login, authenticate, storeGetByUsername, cleanEnv, rotUser, List.find?,
        ComparePasswords, generateJWT, generateAccessToken, generateRefreshToken,
        storeUpdate, HashAndSalt, expectedAccessToken, expectedRefreshToken,
        updatePayload, zeroUser]

/-- Helper: the first refresh of the rotation scenario succeeds and
overwrites the stored hash with the hash of the newly issued refresh
token. -/
theorem rotFirst_eq (key uid uname pwd : String) (ttl : Int) (psalt salt : Nat)
    (t0 t1 : Int) :
    rotFirst key uid uname pwd ttl psalt salt t0 t1 =
      RTOutcome.ok
        { res := { accessToken := expectedAccessToken key uid uname (t1 + ttl * 60),
                   expiresAt := t1 + ttl * 60,
                   refreshToken := expectedRefreshToken key uid (addDate1000Years t1) },
          err := none,
          store := { users := [{ rotUser uid uname pwd psalt with
            refreshToken := some (Str.bhash salt (expectedRefreshToken key uid (addDate1000Years t1))) }] },
          trace := [StoreEvent.getByID uid,
            StoreEvent.update uid (updatePayload uid (Str.bhash salt (expectedRefreshToken key uid (addDate1000Years t1))))] } := by
  rw [rotFirst, rotLogin_eq]
  simp [RefreshToken, VerifyToken, cleanEnv, expectedRefreshToken, expectedAccessToken,
        getStringClaim, List.find?, storeGetByID, rotUser, ComparePasswords,
        generateJWT, generateAccessToken, generateRefreshToken, storeUpdate,
        HashAndSalt, updatePayload, zeroUser]

/-- C2 (amended): after a successful login, the first `RefreshToken` call
with the returned refresh token succeeds and overwrites the stored hash with
a hash of the newly issued refresh token; a second call with the same old
token string then fails with the expired/invalidated-token error — provided
the rotation happened at a different Unix second than the login (`t0 ≠ t1`),
so that the reissued token differs from the old one. -/
theorem refresh_rotation_single_use
    (key uid uname pwd : String) (ttl : Int) (psalt salt : Nat) (t0 t1 t2 : Int)
    (hne : t0 ≠ t1) :
    (rotLogin key uid uname pwd ttl psalt salt t0).err = none ∧
    RTOutcome.errOf (rotFirst key uid uname pwd ttl psalt salt t0 t1) = some none ∧
    (rotFirst key uid uname pwd ttl psalt salt t0 t1).storeOf =
      { users := [{ rotUser uid uname pwd psalt with
        refreshToken := some (Str.bhash salt (expectedRefreshToken key uid (addDate1000Years t1))) }] } ∧
    RTOutcome.errOf (rotSecond key uid uname pwd ttl psalt salt t0 t1 t2) =
      some (some Err.expiredToken) := by
  refine ⟨?_, ?_, ?_, ?_⟩
  · rw [rotLogin_eq]
  · rw [rotFirst_eq]
    rfl
  · rw [rotFirst_eq]
    rfl
  · rw [rotSecond, rotFirst_eq, rotLogin_eq]
    simp [RTOutcome.storeOf, RefreshToken, VerifyToken, cleanEnv, expectedRefreshToken,
          getStringClaim, List.find?, storeGetByID, rotUser, ComparePasswords,
          addDate1000Years, hne, Ne.symm hne, RTOutcome.errOf]

/-- Witness for C2 (amended): the concrete scenario with login at second 0,
rotation at second 1 and the replayed old token at second 2. -/
theorem refresh_rotation_single_use_witness :
    (rotLogin "k" "u1" "alice" "secret" 15 3 7 0).err = none ∧
    RTOutcome.errOf (rotFirst "k" "u1" "alice" "secret" 15 3 7 0 1) = some none ∧
    (rotFirst "k" "u1" "alice" "secret" 15 3 7 0 1).storeOf =
      { users := [{ rotUser "u1" "alice" "secret" 3 with
        refreshToken := some (Str.bhash 7 (expectedRefreshToken "k" "u1" (addDate1000Years 1))) }] } ∧
    RTOutcome.errOf (rotSecond "k" "u1" "alice" "secret" 15 3 7 0 1 2) =
      some (some Err.expiredToken) :=
  refresh_rotation_single_use "k" "u1" "alice" "secret" 15 3 7 0 1 2 (by decide)

/-- C2 counterexample: when the first refresh happens within the same Unix
second as the login (`t0 = t1 = 100`), the reissued refresh token is
byte-identical to the original, so a second `RefreshToken` call with the
same old token string succeeds again instead of failing with the
expired/invalidated-token error. -/
theorem refresh_rotation_same_second_counterexample :
    RTOutcome.errOf (rotFirst "k" "u1" "alice" "secret" 15 3 7 100 100) = some none ∧
    RTOutcome.errOf (rotSecond "k" "u1" "alice" "secret" 15 3 7 100 100 100) = some none ∧
    RTOutcome.errOf (rotSecond "k" "u1" "alice" "secret" 15 3 7 100 100 100)
      ≠ some (some Err.expiredToken) := by
  decide

end GoHex
